import Mathlib

/-
Verification development for TextNatsMessenger (src/__main__.py).

The application is a Textual TUI wrapping a NATS client.  We give a shallow
embedding of its state and of the four handler methods `connect_to_nats`,
`update_subscription`, `send_message` and `handle_message`.  The NATS client
library sits behind a transport boundary; its behaviour at each await point is
supplied by a small oracle (whether the call succeeded, timed out, or raised),
and every call the application issues to the client is recorded as a
`TransportOp`.  The broker-side effect of subscribe/unsubscribe is tracked in
a `Broker` record so that delivery of inbound messages can be modelled.
-/

namespace TextNatsMessenger

/-- A broker-side subscription registration: the handle object returned by
`nats_client.subscribe`, carrying its subject.  Corresponds to the value stored
in `self.current_sid`. -/
structure SubHandle where
  sid : Nat
  topic : String
deriving DecidableEq, Repr

/-- Broker-side state: the set of live subscription registrations (each one
delivers matching messages to the registered callback `handle_message`), and a
counter used to mint fresh handles. -/
structure Broker where
  subs : List SubHandle
  nextSid : Nat
deriving DecidableEq, Repr

/-- A call issued by the application to the NATS client library (the transport
boundary). -/
inductive TransportOp where
  | connect (server : String)
  | subscribe (topic : String)
  | unsubscribe (sid : Nat)
  | publish (topic : String) (payload : String)
deriving DecidableEq, Repr

/-- The application state of `NATSApp`: the reactive fields, the current
subscription slot, the input widgets' values, the message area (one list entry
per `\n`-terminated line appended to `self.message_area.text`), and the
UI flags touched by `connect_to_nats`. -/
structure AppState where
  server : String
  current_subject : String
  current_sid : Option SubHandle
  is_connected : Bool
  is_connecting : Bool
  server_input : String
  subject_input : String
  message_input : String
  message_area : List String
  connect_button_label : String
  connect_button_visible : Bool
  loading_visible : Bool
deriving DecidableEq, Repr

/-- Append one line to the message area (`self.message_area.text += line + "\n"`). -/
def logLine (s : AppState) (line : String) : AppState :=
  { s with message_area := s.message_area ++ [line] }

/-- The initial state of the app: fresh `NATSApp` after `on_mount`. -/
def initApp : AppState :=
  { server := ""
    current_subject := ""
    current_sid := none
    is_connected := false
    is_connecting := false
    server_input := ""
    subject_input := ""
    message_input := ""
    message_area := []
    connect_button_label := "Connetti"
    connect_button_visible := true
    loading_visible := false }

/-- The initial broker state: no registrations. -/
def initBroker : Broker := { subs := [], nextSid := 0 }

/-- Which branch `update_subscription` took, mirroring the method's control
flow: early return on empty subject, an exception raised by
`current_sid.unsubscribe()`, an exception raised by `nats_client.subscribe`,
or the successful path. -/
inductive SubscribeOutcome where
  | emptySubject
  | unsubRaised (msg : String)
  | subRaised (msg : String)
  | subscribed
deriving DecidableEq, Repr

/-- Oracle for the two awaited client calls inside `update_subscription`:
`some msg` means the call raised an exception rendering as `msg`. -/
structure SubOracle where
  unsubErr : Option String
  subErr : Option String
deriving DecidableEq, Repr

/-- Result of one `update_subscription` call: the new app state, the new
broker state, the transport calls issued (in order), and the branch taken. -/
structure SubStep where
  state : AppState
  broker : Broker
  ops : List TransportOp
  outcome : SubscribeOutcome
deriving DecidableEq, Repr

/-- Second half of `update_subscription`, after the optional unsubscribe:
`self.current_subject = new_subject` and then
`self.current_sid = await self.nats_client.subscribe(...)`.  When the
subscribe call raises, the assignment to `current_sid` does not happen, but
`current_subject` has already been updated. -/
def subscribeNew (s : AppState) (b : Broker) (ops : List TransportOp)
    (new_subject : String) (o : SubOracle) : SubStep :=
  let s1 := { s with current_subject := new_subject }
  match o.subErr with
  | some e => ⟨s1, b, ops ++ [TransportOp.subscribe new_subject], .subRaised e⟩
  | none =>
    let h : SubHandle := ⟨b.nextSid, new_subject⟩
    let s2 := { s1 with current_sid := some h }
    let b1 : Broker := { subs := b.subs ++ [h], nextSid := b.nextSid + 1 }
    ⟨logLine s2 ("In ascolto sul subject: " ++ new_subject),
      b1, ops ++ [TransportOp.subscribe new_subject], .subscribed⟩

/-- Shallow embedding of `update_subscription` (src/__main__.py lines
102-118).  Reads `subject_input`, returns early on an empty subject; if a
subscription exists it awaits `unsubscribe()` on it (an exception there
propagates out of the method, with no further work); then subscribes to the
new subject.  Note there is no connection-state check anywhere in the
method. -/
def update_subscription (s : AppState) (b : Broker) (o : SubOracle) : SubStep :=
  let new_subject := s.subject_input
  if new_subject = "" then
    ⟨logLine s "Inserisci un subject valido.", b, [], .emptySubject⟩
  else
    match s.current_sid with
    | some h =>
      match o.unsubErr with
      | some e => ⟨s, b, [TransportOp.unsubscribe h.sid], .unsubRaised e⟩
      | none =>
        let s1 := logLine s ("Disiscritto dal subject: " ++ s.current_subject)
        let b1 : Broker :=
          { b with subs := b.subs.filter (fun x => x.sid ≠ h.sid) }
        subscribeNew s1 b1 [TransportOp.unsubscribe h.sid] new_subject o
    | none => subscribeNew s b [] new_subject o

/-- Shallow embedding of the `handle_message` callback (lines 120-122):
append the decoded payload to the message area. -/
def handle_message (s : AppState) (payload : String) : AppState :=
  logLine s ("Ricevuto: " ++ payload)

/-- Broker-side delivery of one inbound message: every live registration whose
subject matches invokes the registered callback (`handle_message`). -/
def deliver (b : Broker) (topic payload : String) (s : AppState) : AppState :=
  b.subs.foldl
    (fun st h => if h.topic = topic then handle_message st payload else st) s

/-- Which branch `send_message` took: the `nats_client.is_connected` guard,
the empty-message guard, a successful publish, or a publish that raised. -/
inductive SendOutcome where
  | notConnected
  | emptyMessage
  | sent
  | sendRaised (msg : String)
deriving DecidableEq, Repr

/-- Oracle for `send_message`: the NATS client's own `is_connected` flag
(checked by the method) and whether `publish` raised. -/
structure PubOracle where
  clientConnected : Bool
  pubErr : Option String
deriving DecidableEq, Repr

/-- Result of one `send_message` call. -/
structure SendStep where
  state : AppState
  ops : List TransportOp
  outcome : SendOutcome
deriving DecidableEq, Repr

/-- Shallow embedding of `send_message` (lines 124-139).  Guard on
`nats_client.is_connected`, then on an empty message; otherwise publish, and
only on success clear `message_input`. -/
def send_message (s : AppState) (o : PubOracle) : SendStep :=
  if o.clientConnected = false then
    ⟨logLine s "Non sei connesso a un server NATS.", [], .notConnected⟩
  else
    let message := s.message_input
    if message = "" then
      ⟨logLine s "Inserisci un messaggio da inviare.", [], .emptyMessage⟩
    else
      match o.pubErr with
      | none =>
        ⟨{ logLine s ("Inviato: " ++ message) with message_input := "" },
          [TransportOp.publish s.current_subject message], .sent⟩
      | some e =>
        ⟨logLine s ("Errore durante l\x27invio: " ++ e),
          [TransportOp.publish s.current_subject message], .sendRaised e⟩

/-- Outcome of `asyncio.wait_for(self.nats_client.connect(...), timeout=5.0)`:
the connect call completed in time, the 5-second timeout fired
(`asyncio.TimeoutError`), or the client raised some other exception. -/
inductive ConnResult where
  | ok
  | timedOut
  | raised (msg : String)
deriving DecidableEq, Repr

/-- Which branch `connect_to_nats` took: early return on an empty server
field, the try-body completed (carrying the outcome of the inner
`update_subscription` call), the timeout branch, or the generic exception
branch. -/
inductive ConnectOutcome where
  | emptyServer
  | connectedOk (sub : SubscribeOutcome)
  | timedOut
  | connRaised (msg : String)
deriving DecidableEq, Repr

/-- Result of one `connect_to_nats` call. -/
structure ConnectStep where
  state : AppState
  broker : Broker
  ops : List TransportOp
  outcome : ConnectOutcome
deriving DecidableEq, Repr

/-- The timeout passed to `asyncio.wait_for` around the connect call
(`timeout=5.0`, line 86), in seconds. -/
def connectTimeoutSeconds : Nat := 5

/-- The `finally` block of `connect_to_nats` (lines 95-100): always clears
`is_connecting`, hides the loading indicator and shows the button again. -/
def finallyBlock (s : AppState) : AppState :=
  { s with is_connecting := false
           loading_visible := false
           connect_button_visible := true }

/-- Shallow embedding of `connect_to_nats` (lines 71-100).  Copies
`server_input` into `server` and returns early if it is empty; otherwise sets
`is_connecting` and the loading UI, awaits the client connect under the
5-second `asyncio.wait_for`; on success marks the app connected, relabels the
button and calls `update_subscription` (whose exceptions, raised inside the
`try` body, are caught by the generic `except` branch and logged); on
`asyncio.TimeoutError` or any other exception logs the corresponding line.
The `finally` block runs on every path out of the try. -/
def connect_to_nats (s : AppState) (b : Broker) (co : ConnResult)
    (so : SubOracle) : ConnectStep :=
  let s0 := { s with server := s.server_input }
  if s0.server = "" then
    ⟨logLine s0 "Inserisci un server NATS valido.", b, [], .emptyServer⟩
  else
    let s1 := { s0 with is_connecting := true
                        connect_button_visible := false
                        loading_visible := true }
    match co with
    | .ok =>
      let s2 := { s1 with is_connected := true
                          connect_button_label := "Change Subject" }
      let s3 := logLine s2 ("Connesso al server NATS: " ++ s2.server)
      let step := update_subscription s3 b so
      let s4 :=
        match step.outcome with
        | .unsubRaised e => logLine step.state ("Errore di connessione: " ++ e)
        | .subRaised e => logLine step.state ("Errore di connessione: " ++ e)
        | _ => step.state
      ⟨finallyBlock s4, step.broker,
        TransportOp.connect s0.server :: step.ops, .connectedOk step.outcome⟩
    | .timedOut =>
      ⟨finallyBlock
          (logLine s1 "Timeout: impossibile connettersi al server NATS."),
        b, [TransportOp.connect s0.server], .timedOut⟩
    | .raised e =>
      ⟨finallyBlock (logLine s1 ("Errore di connessione: " ++ e)),
        b, [TransportOp.connect s0.server], .connRaised e⟩

/-- Shallow embedding of `on_input_submitted` (lines 141-144): submitting the
subject input unconditionally calls `update_subscription`; submitting any
other input does nothing. -/
def on_input_submitted (inputId : String) (s : AppState) (b : Broker)
    (so : SubOracle) : Option SubStep :=
  if inputId = "subject_input" then some (update_subscription s b so) else none

/-- Model of the user typing a subject into `subject_input` before submitting
it. -/
def setSubjectInput (s : AppState) (t : String) : AppState :=
  { s with subject_input := t }

/-- A sequence of `SetTopic` requests: for each one the user types the topic
into the subject field and `update_subscription` runs, with the given oracle
deciding the two client calls. -/
def runSwaps (reqs : List (String × SubOracle)) (s : AppState) (b : Broker) :
    AppState × Broker :=
  match reqs with
  | [] => (s, b)
  | (t, o) :: rest =>
    let step := update_subscription (setSubjectInput s t) b o
    runSwaps rest step.state step.broker

/-- Linking invariant between the subscription slot and the broker: at most
one live registration, and any live registration is the one held in
`current_sid`. -/
def SlotInv (s : AppState) (b : Broker) : Prop :=
  b.subs.length ≤ 1 ∧ ∀ h ∈ b.subs, s.current_sid = some h

instance (s : AppState) (b : Broker) : Decidable (SlotInv s b) := by
  unfold SlotInv; infer_instance

/-- Iterated firing of the `handle_message` callback, one inbound payload at a
time (the delivery loop of the client library driving the callback). -/
def appendMessages (payloads : List String) (s : AppState) : AppState :=
  match payloads with
  | [] => s
  | p :: rest => appendMessages rest (handle_message s p)

/-- Concrete subscription handle used in example states: sid 0 on subject
"orders". -/
def exHandle : SubHandle := ⟨0, "orders"⟩

/-- Example state: connected app currently subscribed to "orders". -/
def exAppSub : AppState :=
  { initApp with is_connected := true
                 current_subject := "orders"
                 current_sid := some exHandle }

/-- Example broker matching `exAppSub`: exactly the "orders" registration is
live. -/
def exBrokerSub : Broker := { subs := [exHandle], nextSid := 1 }

/-- Example state: app not connected, with "news" typed into the subject
field. -/
def exAppDisc : AppState := { initApp with subject_input := "news" }

/-- Example state: fresh app with a server address typed in. -/
def exAppSrv : AppState := { initApp with server_input := "nats://x" }

/-- The message area after iterated callback firing is the old area extended,
in order, with one "Ricevuto:" line per payload. -/
theorem appendMessages_area (ps : List String) (s : AppState) :
    (appendMessages ps s).message_area =
      s.message_area ++ ps.map (fun p => "Ricevuto: " ++ p) := by
  induction ps generalizing s with
  | nil => simp [appendMessages]
  | cons p rest ih => simp [appendMessages, ih, handle_message, logLine]

/-- `update_subscription` never touches the `is_connected` flag. -/
theorem update_subscription_is_connected (s : AppState) (b : Broker)
    (o : SubOracle) :
    (update_subscription s b o).state.is_connected = s.is_connected := by
  rcases o with ⟨ue, se⟩
  unfold update_subscription subscribeNew
  by_cases hs : s.subject_input = "" <;>
    cases hcs : s.current_sid <;> cases ue <;> cases se <;>
    simp [hs, logLine]

/-- `update_subscription` never touches the `is_connecting` flag. -/
theorem update_subscription_is_connecting (s : AppState) (b : Broker)
    (o : SubOracle) :
    (update_subscription s b o).state.is_connecting = s.is_connecting := by
  rcases o with ⟨ue, se⟩
  unfold update_subscription subscribeNew
  by_cases hs : s.subject_input = "" <;>
    cases hcs : s.current_sid <;> cases ue <;> cases se <;>
    simp [hs, logLine]

/-- `SlotInv` holds after the subscribe half of a swap whenever the broker has
no live registration when it starts. -/
theorem slotInv_subscribeNew (s : AppState) (b : Broker)
    (ops : List TransportOp) (t : String) (o : SubOracle)
    (hb : b.subs = []) :
    SlotInv (subscribeNew s b ops t o).state (subscribeNew s b ops t o).broker := by
  unfold subscribeNew SlotInv
  cases o.subErr <;> simp [hb, logLine]

/-- The slot/broker invariant is preserved by every `update_subscription`
call, whatever the oracle decides. -/
theorem slotInv_update (s : AppState) (b : Broker) (o : SubOracle)
    (h : SlotInv s b) :
    SlotInv (update_subscription s b o).state
      (update_subscription s b o).broker := by
  obtain ⟨hlen, hmem⟩ := h
  unfold update_subscription
  by_cases hs : s.subject_input = ""
  · simpa [hs, SlotInv, logLine] using ⟨hlen, hmem⟩
  · cases hcs : s.current_sid with
    | none =>
      have hb : b.subs = [] := by
        cases hbs : b.subs with
        | nil => rfl
        | cons x xs =>
          exfalso
          have := hmem x (by rw [hbs]; exact List.mem_cons_self x xs)
          rw [hcs] at this
          exact Option.noConfusion this
      simpa [hs] using slotInv_subscribeNew s b [] s.subject_input o hb
    | some hd =>
      cases hue : o.unsubErr with
      | some e => simpa [hs, SlotInv] using ⟨hlen, hmem⟩
      | none =>
        have hb1 : (b.subs.filter (fun x => x.sid ≠ hd.sid)) = [] := by
          rw [List.filter_eq_nil_iff]
          intro x hx
          have := hmem x hx
          rw [hcs] at this
          have hx2 : x = hd := (Option.some.inj this).symm
          simp [hx2]
        simpa [hs] using
          slotInv_subscribeNew (logLine s ("Disiscritto dal subject: " ++ s.current_subject))
            { b with subs := b.subs.filter (fun x => x.sid ≠ hd.sid) }
            [TransportOp.unsubscribe hd.sid] s.subject_input o hb1

/-- The slot/broker invariant is preserved by any sequence of swap
requests. -/
theorem slotInv_runSwaps (reqs : List (String × SubOracle)) (s : AppState)
    (b : Broker) (h : SlotInv s b) :
    SlotInv (runSwaps reqs s b).1 (runSwaps reqs s b).2 := by
  induction reqs generalizing s b with
  | nil => exact h
  | cons r rest ih =>
    have hset : SlotInv (setSubjectInput s r.1) b := ⟨h.1, h.2⟩
    exact ih _ _ (slotInv_update (setSubjectInput s r.1) b r.2 hset)

/-- C2: a `send_message` call made while the NATS client is disconnected
fails on the not-connected guard (logging the "Non sei connesso" line) and
issues no transport call at all; in particular `publish` is never invoked. -/
theorem C2_publish_while_disconnected (s : AppState) (o : PubOracle)
    (h : o.clientConnected = false) :
    (send_message s o).outcome = SendOutcome.notConnected ∧
    (send_message s o).ops = [] ∧
    (send_message s o).state =
      logLine s "Non sei connesso a un server NATS." := by
  simp [send_message, h]

/-- Witness for C2 at a concrete disconnected state with payload "hi". -/
theorem C2_publish_while_disconnected_witness :
    (send_message { initApp with message_input := "hi" }
        ⟨false, none⟩).outcome = SendOutcome.notConnected ∧
    (send_message { initApp with message_input := "hi" }
        ⟨false, none⟩).ops = [] ∧
    (send_message { initApp with message_input := "hi" } ⟨false, none⟩).state =
      logLine { initApp with message_input := "hi" }
        "Non sei connesso a un server NATS." :=
  C2_publish_while_disconnected { initApp with message_input := "hi" }
    ⟨false, none⟩ rfl

/-- C7: while the client is connected, `send_message` with an empty message
fails on the empty-payload guard and issues no transport call, while a
non-empty message whose publish does not raise is published to the current
subject and reported sent. -/
theorem C7_payload_validation (s : AppState) (o : PubOracle)
    (hc : o.clientConnected = true) :
    (s.message_input = "" →
      (send_message s o).outcome = SendOutcome.emptyMessage ∧
      (send_message s o).ops = []) ∧
    (s.message_input ≠ "" → o.pubErr = none →
      (send_message s o).outcome = SendOutcome.sent ∧
      (send_message s o).ops =
        [TransportOp.publish s.current_subject s.message_input]) := by
  constructor
  · intro he; simp [send_message, hc, he]
  · intro he hp; simp [send_message, hc, he, hp]

/-- Witness for C7: empty payload at one concrete connected state, a
successful publish of "hi" on "orders" at another. -/
theorem C7_payload_validation_witness :
    ((send_message initApp ⟨true, none⟩).outcome = SendOutcome.emptyMessage ∧
      (send_message initApp ⟨true, none⟩).ops = []) ∧
    ((send_message
        { initApp with message_input := "hi", current_subject := "orders" }
        ⟨true, none⟩).outcome = SendOutcome.sent ∧
      (send_message
        { initApp with message_input := "hi", current_subject := "orders" }
        ⟨true, none⟩).ops = [TransportOp.publish "orders" "hi"]) := by
  refine ⟨(C7_payload_validation initApp ⟨true, none⟩ rfl).1 rfl, ?_⟩
  exact (C7_payload_validation
    { initApp with message_input := "hi", current_subject := "orders" }
    ⟨true, none⟩ rfl).2 (by decide) rfl

/-- C10: `send_message` clears the message input field exactly when the
publish succeeded; on the not-connected, empty-message and publish-exception
paths the field keeps its previous value. -/
theorem C10_input_cleared_iff_sent (s : AppState) (o : PubOracle) :
    (send_message s o).state.message_input =
      (if (send_message s o).outcome = SendOutcome.sent then ""
       else s.message_input) := by
  rcases o with ⟨cc, pe⟩
  cases cc <;> cases pe <;>
    by_cases hm : s.message_input = "" <;>
    simp [send_message, logLine, hm]

/-- C8 counterexample: the message area enforces no capacity bound.  After
1001 inbound messages on a fresh app it holds 1001 lines — above the
spec's example 1000-line capacity — and the oldest line is still there, so
nothing was evicted. -/
theorem C8_counterexample :
    1000 <
      (appendMessages (List.replicate 1001 "x") initApp).message_area.length ∧
    (appendMessages (List.replicate 1001 "x") initApp).message_area.length =
      1001 ∧
    "Ricevuto: x" ∈
      (appendMessages (List.replicate 1001 "x") initApp).message_area := by
  rw [appendMessages_area]
  refine ⟨?_, ?_, ?_⟩
  · simp only [initApp, List.nil_append, List.length_map, List.length_replicate]
    norm_num
  · simp only [initApp, List.nil_append, List.length_map, List.length_replicate]
  · refine List.mem_append_right _ ?_
    exact List.mem_map.mpr
      ⟨"x", List.mem_replicate.mpr ⟨by norm_num, rfl⟩, by decide⟩

/-- C8 as it holds on the code: the message area is append-only and preserves
insertion order — each delivered payload adds exactly one line at the end —
but it is unbounded: no capacity limit is enforced and no line is ever
evicted. -/
theorem C8_log_append_only_unbounded (ps : List String) (s : AppState) :
    (appendMessages ps s).message_area =
      s.message_area ++ ps.map (fun p => "Ricevuto: " ++ p) ∧
    (appendMessages ps s).message_area.length =
      s.message_area.length + ps.length := by
  refine ⟨appendMessages_area ps s, ?_⟩
  rw [appendMessages_area]
  simp

/-- C3 counterexample: on an app that is not connected, with "news" typed
into the subject field, `update_subscription` does not fail with any
not-connected error — it goes ahead and issues a subscribe call to the
transport, reporting the subscribed outcome. -/
theorem C3_counterexample :
    exAppDisc.is_connected = false ∧
    (update_subscription exAppDisc initBroker ⟨none, none⟩).ops =
      [TransportOp.subscribe "news"] ∧
    (update_subscription exAppDisc initBroker ⟨none, none⟩).outcome =
      SubscribeOutcome.subscribed := by
  decide

/-- C3 as it holds on the code: `update_subscription` contains no
connection-state check at all.  Its transport calls and its outcome are
independent of the `is_connected` flag, and whenever the subject field is
non-empty it issues at least one transport call — even while not
connected. -/
theorem C3_no_connection_guard (s : AppState) (b : Broker) (o : SubOracle)
    (c : Bool) :
    ((update_subscription { s with is_connected := c } b o).ops =
        (update_subscription s b o).ops ∧
      (update_subscription { s with is_connected := c } b o).outcome =
        (update_subscription s b o).outcome) ∧
    (s.subject_input ≠ "" → (update_subscription s b o).ops ≠ []) := by
  rcases o with ⟨ue, se⟩
  constructor
  · unfold update_subscription subscribeNew
    by_cases hs : s.subject_input = "" <;>
      cases hcs : s.current_sid <;> cases ue <;> cases se <;>
      simp [hs, logLine]
  · intro hs
    unfold update_subscription subscribeNew
    cases hcs : s.current_sid <;> cases ue <;> cases se <;> simp [hs]

/-- Witness for C3's amended theorem at a concrete disconnected state. -/
theorem C3_no_connection_guard_witness :
    ((update_subscription { exAppDisc with is_connected := true } initBroker
          ⟨none, none⟩).ops =
        (update_subscription exAppDisc initBroker ⟨none, none⟩).ops ∧
      (update_subscription { exAppDisc with is_connected := true } initBroker
          ⟨none, none⟩).outcome =
        (update_subscription exAppDisc initBroker ⟨none, none⟩).outcome) ∧
    (update_subscription exAppDisc initBroker ⟨none, none⟩).ops ≠ [] :=
  ⟨(C3_no_connection_guard exAppDisc initBroker ⟨none, none⟩ true).1,
    (C3_no_connection_guard exAppDisc initBroker ⟨none, none⟩ true).2
      (by decide)⟩

/-- C5 counterexample: swapping from "orders" to "alerts" when the subscribe
call fails does not leave the slot empty — `current_sid` still holds the old
"orders" handle (now stale: its broker-side registration is gone). -/
theorem C5_counterexample :
    (update_subscription (setSubjectInput exAppSub "alerts") exBrokerSub
        ⟨none, some "subscribe failed"⟩).outcome =
      SubscribeOutcome.subRaised "subscribe failed" ∧
    (update_subscription (setSubjectInput exAppSub "alerts") exBrokerSub
        ⟨none, some "subscribe failed"⟩).state.current_sid =
      some ⟨0, "orders"⟩ ∧
    (update_subscription (setSubjectInput exAppSub "alerts") exBrokerSub
        ⟨none, some "subscribe failed"⟩).broker.subs = [] := by
  decide

/-- C5 as it holds on the code: when the old handle is unsubscribed and the
new subscribe raises, `current_sid` keeps the previous, now-stale handle
(the assignment never ran), `current_subject` has already moved to the new
topic, and the broker-side registration of the old handle is gone. -/
theorem C5_failed_swap_keeps_stale_handle (s : AppState) (b : Broker)
    (o : SubOracle) (h : SubHandle) (e : String)
    (hcs : s.current_sid = some h) (hne : s.subject_input ≠ "")
    (hu : o.unsubErr = none) (hsx : o.subErr = some e) :
    (update_subscription s b o).state.current_sid = some h ∧
    (update_subscription s b o).state.current_subject = s.subject_input ∧
    (update_subscription s b o).broker.subs =
      b.subs.filter (fun x => x.sid ≠ h.sid) ∧
    (update_subscription s b o).outcome = SubscribeOutcome.subRaised e := by
  simp [update_subscription, subscribeNew, hcs, hne, hu, hsx, logLine]

/-- Witness for C5's amended theorem at the concrete failed "alerts" swap. -/
theorem C5_failed_swap_keeps_stale_handle_witness :
    (update_subscription (setSubjectInput exAppSub "alerts") exBrokerSub
        ⟨none, some "boom"⟩).state.current_sid = some exHandle ∧
    (update_subscription (setSubjectInput exAppSub "alerts") exBrokerSub
        ⟨none, some "boom"⟩).state.current_subject =
      (setSubjectInput exAppSub "alerts").subject_input ∧
    (update_subscription (setSubjectInput exAppSub "alerts") exBrokerSub
        ⟨none, some "boom"⟩).broker.subs =
      exBrokerSub.subs.filter (fun x => x.sid ≠ exHandle.sid) ∧
    (update_subscription (setSubjectInput exAppSub "alerts") exBrokerSub
        ⟨none, some "boom"⟩).outcome = SubscribeOutcome.subRaised "boom" :=
  C5_failed_swap_keeps_stale_handle (setSubjectInput exAppSub "alerts")
    exBrokerSub ⟨none, some "boom"⟩ exHandle "boom" rfl (by decide) rfl rfl

/-- C6 counterexample: when unsubscribing the old "orders" handle raises, the
swap to "alerts" is aborted wholesale — the only transport call is the failed
unsubscribe, no subscribe is attempted, the exception propagates, and the
state (slot, broker, message area) is exactly as before, so the failure is
not even logged by this method. -/
theorem C6_counterexample :
    update_subscription (setSubjectInput exAppSub "alerts") exBrokerSub
        ⟨some "boom", none⟩ =
      ⟨setSubjectInput exAppSub "alerts", exBrokerSub,
        [TransportOp.unsubscribe 0], SubscribeOutcome.unsubRaised "boom"⟩ := by
  decide

/-- C6 as it holds on the code: an unsubscribe failure is not caught inside
`update_subscription`; the exception propagates, aborting the swap.  The
method issues only the failed unsubscribe call, establishes no new
subscription, and leaves the app state and broker state unchanged — in
particular it logs nothing about the failure. -/
theorem C6_unsub_failure_aborts_swap (s : AppState) (b : Broker)
    (o : SubOracle) (h : SubHandle) (e : String)
    (hcs : s.current_sid = some h) (hne : s.subject_input ≠ "")
    (hu : o.unsubErr = some e) :
    update_subscription s b o =
      ⟨s, b, [TransportOp.unsubscribe h.sid],
        SubscribeOutcome.unsubRaised e⟩ := by
  simp [update_subscription, hcs, hne, hu]

/-- Witness for C6's amended theorem at the concrete aborted "alerts" swap. -/
theorem C6_unsub_failure_aborts_swap_witness :
    update_subscription (setSubjectInput exAppSub "alerts") exBrokerSub
        ⟨some "boom2", none⟩ =
      ⟨setSubjectInput exAppSub "alerts", exBrokerSub,
        [TransportOp.unsubscribe exHandle.sid],
        SubscribeOutcome.unsubRaised "boom2"⟩ :=
  C6_unsub_failure_aborts_swap (setSubjectInput exAppSub "alerts") exBrokerSub
    ⟨some "boom2", none⟩ exHandle "boom2" rfl (by decide) rfl

/-- After `connect_to_nats` with a non-empty server field, the `finally`
block has cleared `is_connecting`, and `is_connected` is set exactly when the
client connect call completed in time. -/
theorem connect_to_nats_flags (s : AppState) (b : Broker) (co : ConnResult)
    (so : SubOracle) (hs : s.server_input ≠ "") :
    (connect_to_nats s b co so).state.is_connecting = false ∧
    ((connect_to_nats s b co so).state.is_connected =
      match co with
      | ConnResult.ok => true
      | _ => s.is_connected) := by
  cases co with
  | ok =>
    constructor
    · simp [connect_to_nats, hs, finallyBlock]
    · simp only [connect_to_nats, hs]
      simp only [ne_eq, hs, not_false_eq_true, if_neg, ite_false, reduceIte]
      split <;>
        simp [finallyBlock, logLine, update_subscription_is_connected]
  | timedOut => simp [connect_to_nats, hs, finallyBlock, logLine]
  | raised e => simp [connect_to_nats, hs, finallyBlock, logLine]

/-- C1: over any sequence of subject swaps the broker never holds more than
one live registration; a successful swap issues the unsubscribe of the old
handle strictly before the subscribe of the new subject, leaves exactly the
new registration live, and afterwards a message arriving on the old subject
no longer invokes the consumer callback. -/
theorem C1_at_most_one_subscription :
    (∀ reqs s b, SlotInv s b →
      ((runSwaps reqs s b).2).subs.length ≤ 1) ∧
    (∀ s b h t o, s.is_connected = true → s.current_sid = some h →
      b.subs = [h] → t ≠ "" → o.unsubErr = none → o.subErr = none →
      (update_subscription (setSubjectInput s t) b o).ops =
        [TransportOp.unsubscribe h.sid, TransportOp.subscribe t] ∧
      (update_subscription (setSubjectInput s t) b o).broker.subs =
        [⟨b.nextSid, t⟩] ∧
      (h.topic ≠ t → ∀ payload sd,
        deliver (update_subscription (setSubjectInput s t) b o).broker
          h.topic payload sd = sd)) := by
  constructor
  · intro reqs s b h
    exact (slotInv_runSwaps reqs s b h).1
  · intro s b h t o hconn hcs hb ht hu hsx
    refine ⟨?_, ?_, ?_⟩
    · simp [update_subscription, subscribeNew, setSubjectInput, hcs, ht, hu,
        hsx]
    · simp [update_subscription, subscribeNew, setSubjectInput, hcs, ht, hu,
        hsx, hb]
    · intro hne payload sd
      have hne2 : t ≠ h.topic := Ne.symm hne
      simp [update_subscription, subscribeNew, setSubjectInput, hcs, ht, hu,
        hsx, hb, deliver, handle_message, hne2]

/-- Witness for C1: a concrete two-swap run from the initial state stays
within one registration, and the concrete "orders" to "alerts" swap issues
unsubscribe before subscribe and stops delivery of "orders" messages. -/
theorem C1_at_most_one_subscription_witness :
    ((runSwaps [("orders", ⟨none, none⟩), ("alerts", ⟨none, none⟩)] initApp
        initBroker).2).subs.length ≤ 1 ∧
    (update_subscription (setSubjectInput exAppSub "alerts") exBrokerSub
        ⟨none, none⟩).ops =
      [TransportOp.unsubscribe exHandle.sid, TransportOp.subscribe "alerts"] ∧
    deliver (update_subscription (setSubjectInput exAppSub "alerts")
        exBrokerSub ⟨none, none⟩).broker exHandle.topic "hello" initApp =
      initApp := by
  refine ⟨C1_at_most_one_subscription.1 _ initApp initBroker (by decide),
    ?_, ?_⟩
  · exact (C1_at_most_one_subscription.2 exAppSub exBrokerSub exHandle
      "alerts" ⟨none, none⟩ rfl rfl rfl (by decide) rfl rfl).1
  · exact (C1_at_most_one_subscription.2 exAppSub exBrokerSub exHandle
      "alerts" ⟨none, none⟩ rfl rfl rfl (by decide) rfl rfl).2.2 (by decide)
      "hello" initApp

/-- C4: the connect call is guarded by the 5-second `asyncio.wait_for`; when
that timeout fires, `connect_to_nats` takes the timeout branch, logs the
timeout line and does not become connected; when the client raises instead
(for example a refused connection), it takes the error branch, logs the
connection-error line and does not become connected. -/
theorem C4_connect_timeout (s : AppState) (b : Broker) (so : SubOracle)
    (e : String) (hs : s.server_input ≠ "") :
    connectTimeoutSeconds = 5 ∧
    ((connect_to_nats s b ConnResult.timedOut so).outcome =
        ConnectOutcome.timedOut ∧
      (connect_to_nats s b ConnResult.timedOut so).state.is_connected =
        s.is_connected ∧
      "Timeout: impossibile connettersi al server NATS." ∈
        (connect_to_nats s b ConnResult.timedOut so).state.message_area) ∧
    ((connect_to_nats s b (ConnResult.raised e) so).outcome =
        ConnectOutcome.connRaised e ∧
      (connect_to_nats s b (ConnResult.raised e) so).state.is_connected =
        s.is_connected ∧
      ("Errore di connessione: " ++ e) ∈
        (connect_to_nats s b (ConnResult.raised e) so).state.message_area) := by
  refine ⟨rfl, ⟨?_, ?_, ?_⟩, ⟨?_, ?_, ?_⟩⟩ <;>
    simp [connect_to_nats, finallyBlock, logLine, hs]

/-- Witness for C4 at a concrete fresh app with a server address typed in. -/
theorem C4_connect_timeout_witness :
    connectTimeoutSeconds = 5 ∧
    ((connect_to_nats exAppSrv initBroker ConnResult.timedOut
        ⟨none, none⟩).outcome = ConnectOutcome.timedOut ∧
      (connect_to_nats exAppSrv initBroker ConnResult.timedOut
        ⟨none, none⟩).state.is_connected = exAppSrv.is_connected ∧
      "Timeout: impossibile connettersi al server NATS." ∈
        (connect_to_nats exAppSrv initBroker ConnResult.timedOut
          ⟨none, none⟩).state.message_area) ∧
    ((connect_to_nats exAppSrv initBroker (ConnResult.raised "refused")
        ⟨none, none⟩).outcome = ConnectOutcome.connRaised "refused" ∧
      (connect_to_nats exAppSrv initBroker (ConnResult.raised "refused")
        ⟨none, none⟩).state.is_connected = exAppSrv.is_connected ∧
      ("Errore di connessione: " ++ "refused") ∈
        (connect_to_nats exAppSrv initBroker (ConnResult.raised "refused")
          ⟨none, none⟩).state.message_area) :=
  C4_connect_timeout exAppSrv initBroker ⟨none, none⟩ "refused" (by decide)

/-- C9: starting from a not-connecting, not-connected state, every
`connect_to_nats` call ends with `is_connecting` false (the `finally` block),
and ends connected exactly when the server field was non-empty and the client
connect completed in time. -/
theorem C9_connecting_cleared (s : AppState) (b : Broker) (co : ConnResult)
    (so : SubOracle) (h1 : s.is_connecting = false)
    (h2 : s.is_connected = false) :
    (connect_to_nats s b co so).state.is_connecting = false ∧
    ((connect_to_nats s b co so).state.is_connected = true ↔
      s.server_input ≠ "" ∧ co = ConnResult.ok) := by
  by_cases hs : s.server_input = ""
  · cases co <;> simp [connect_to_nats, hs, h1, h2, logLine]
  · obtain ⟨hA, hB⟩ := connect_to_nats_flags s b co so hs
    refine ⟨hA, ?_⟩
    rw [hB]
    cases co <;> simp [hs, h2]

/-- Witness for C9 at a concrete fresh app whose connect call succeeds. -/
theorem C9_connecting_cleared_witness :
    (connect_to_nats exAppSrv initBroker ConnResult.ok
        ⟨none, none⟩).state.is_connecting = false ∧
    ((connect_to_nats exAppSrv initBroker ConnResult.ok
        ⟨none, none⟩).state.is_connected = true ↔
      exAppSrv.server_input ≠ "" ∧ ConnResult.ok = ConnResult.ok) :=
  C9_connecting_cleared exAppSrv initBroker ConnResult.ok ⟨none, none⟩ rfl rfl

end TextNatsMessenger
